import Mathlib

/-!
# Verification of the breast-cancer VCF risk-analysis pipeline

Shallow embedding of `analysis/genetic_analyzer.py`: the VCF parser
(primary and fallback), gene-overlap matching, the offline/online
annotation providers, the per-variant risk classifier, and the overall
risk aggregator, together with theorems checking the natural-language
specification against this embedding.

Python string/list idioms (`in`, `replace`, `split`, truthiness of
`None`/`""`/`0.0`, `x or default`) are modelled by explicit executable
functions below.  Machine floats carried by the pipeline (allele
frequencies) only ever flow through unchanged or get compared to `0.0`,
so they are modelled exactly as rationals.
-/

namespace VcfPipeline

/-- Python `pat in s` on lists of characters: `pat` occurs as a
contiguous substring.  (`"" in s` is `True` in Python, matched here by
`List.isPrefixOf [] _ = true`.) -/
def containsL (pat : List Char) : List Char → Bool
  | [] => pat.isEmpty
  | c :: rest => pat.isPrefixOf (c :: rest) || containsL pat rest

/-- Python `pat in s` on strings. -/
def containsSub (s pat : String) : Bool := containsL pat.data s.data

/-- Python `s.lower()` restricted to its ASCII effect (the pipeline's
significance/classification/key strings are ASCII). -/
def pyLower (s : String) : String := ⟨s.data.map Char.toLower⟩

/-- Python `s.replace(pat, rep)`: replace every non-overlapping
occurrence of `pat`, scanning left to right.  Fuelled so that it
reduces structurally; `replaceL` supplies the list's length as fuel,
which each step stays below. -/
def replaceLAux (pat rep : List Char) : Nat → List Char → List Char
  | _, [] => []
  | 0, l => l
  | fuel + 1, c :: cs =>
    if pat ≠ [] ∧ pat.isPrefixOf (c :: cs) then
      rep ++ replaceLAux pat rep fuel (List.drop pat.length (c :: cs))
    else
      c :: replaceLAux pat rep fuel cs

/-- Python `s.replace(pat, rep)` on lists of characters. -/
def replaceL (pat rep l : List Char) : List Char := replaceLAux pat rep l.length l

/-- Python `s.replace(pat, rep)` on strings. -/
def pyReplace (s pat rep : String) : String := ⟨replaceL pat.data rep.data s.data⟩

/-- Python `s.split(sep)` for a single-character separator (always
returns at least one piece; `"".split(sep) == [""]`). -/
def splitOnCharL (sep : Char) : List Char → List (List Char)
  | [] => [[]]
  | c :: rest =>
    match splitOnCharL sep rest with
    | [] => if c = sep then [[], []] else [[c]]
    | h :: t => if c = sep then [] :: h :: t else (c :: h) :: t

/-- Python `s.split(sep)` on strings, single-character separator. -/
def pySplit (sep : Char) (s : String) : List String :=
  (splitOnCharL sep s.data).map (fun l => ⟨l⟩)

/-- The text before the first occurrence of `sep`, i.e.
`s.split(sep)[0]` (which is the whole string when `sep` is absent). -/
def beforeChar (sep : Char) (s : String) : String := ⟨s.data.takeWhile (· ≠ sep)⟩

/-- Python `s.startswith(pre)`. -/
def pyStartsWith (s pre : String) : Bool := pre.data.isPrefixOf s.data

/-- Characters stripped by Python `str.strip()` (ASCII whitespace). -/
def isPySpace (c : Char) : Bool :=
  c = ' ' || c = '\t' || c = '\n' || c = '\r' || c = '\x0b' || c = '\x0c'

/-- Python `s.strip()`. -/
def pyStrip (s : String) : String :=
  ⟨((s.data.dropWhile isPySpace).reverse.dropWhile isPySpace).reverse⟩

/-- Digits of a decimal literal as a natural number; `none` when the
list is empty or holds a non-digit. -/
def digitsToNat : List Char → Option Nat
  | [] => none
  | [c] => if c.isDigit then some (c.toNat - '0'.toNat) else none
  | c :: rest =>
    if c.isDigit then
      (digitsToNat rest).map (fun n => (c.toNat - '0'.toNat) * 10 ^ rest.length + n)
    else none

/-- Python `int(s)`: surrounding whitespace stripped, optional sign,
then decimal digits.  (Underscore separators and other bases are not
modelled; the pipeline only meets plain decimal positions.) -/
def parseInt (s : String) : Option Int :=
  match (pyStrip s).data with
  | '-' :: rest => (digitsToNat rest).map (fun n => -(n : Int))
  | '+' :: rest => (digitsToNat rest).map (fun n => (n : Int))
  | l => (digitsToNat l).map (fun n => (n : Int))

/-- Python `float(s)` restricted to plain decimal literals: optional
sign, integer digits, optional fractional part.  Exponent, `inf` and
`nan` forms are not modelled; allele-frequency INFO values are plain
decimals.  The value is represented exactly as a rational. -/
def parseFloat (s : String) : Option ℚ :=
  let core : List Char → Option ℚ := fun l =>
    let ip := l.takeWhile Char.isDigit
    let rest := l.dropWhile Char.isDigit
    match rest with
    | [] =>
      (digitsToNat ip).map (fun n => (n : ℚ))
    | '.' :: frac =>
      if frac.all Char.isDigit then
        if ip.isEmpty && frac.isEmpty then none
        else
          let ipVal : ℚ := ((digitsToNat ip).getD 0 : ℚ)
          let fracVal : ℚ := ((digitsToNat frac).getD 0 : ℚ) / (10 ^ frac.length : ℚ)
          some (ipVal + fracVal)
      else none
    | _ => none
  match (pyStrip s).data with
  | '-' :: rest => (core rest).map (fun q => -q)
  | '+' :: rest => core rest
  | l => core l

/-- Python truthiness of an optional string: `None` and `""` are falsy
(`if variant.consequence:` style tests). -/
def pyStrTruthy : Option String → Option String
  | none => none
  | some s => if s = "" then none else some s

/-- Python `opt or default` on an optional string (`None` and `""` give
the default). -/
def pyOrStr (o : Option String) (d : String) : String :=
  match o with
  | none => d
  | some s => if s = "" then d else s

/-- Python `x or 0.001` on an optional float: `None` *and* `0.0` are
falsy, so a present-but-zero allele frequency also yields the default. -/
def pyOrQ (o : Option ℚ) (d : ℚ) : ℚ :=
  match o with
  | none => d
  | some x => if x = 0 then d else x

/-! ## Data model (`BREAST_CANCER_GENES`, `RiskLevel`, `GeneticVariant`) -/

/-- `BREAST_CANCER_GENES`: gene symbol with chromosome label and
inclusive GRCh37 interval, in the source's dict insertion order (the
order matters: the matcher takes the first containing interval). -/
def BREAST_CANCER_GENES : List (String × String × Int × Int) :=
  [ ("BRCA1", "17", 43044295, 43125483),
    ("BRCA2", "13", 32889611, 32973805),
    ("PALB2", "16", 23614479, 23652679),
    ("TP53", "17", 7661779, 7687550),
    ("PTEN", "10", 89622870, 89731687),
    ("CHEK2", "22", 28687741, 28741829),
    ("ATM", "11", 108093099, 108239829),
    ("CDH1", "16", 68737224, 68835537),
    ("STK11", "19", 1222203, 1249790),
    ("NF1", "17", 29421945, 29704695) ]

/-- The `RiskLevel` enumeration. -/
inductive RiskLevel where
  | HIGH
  | MODERATE
  | INCREASED
  | POPULATION
  | VUS
deriving DecidableEq

/-- The `.value` string of each `RiskLevel` member. -/
def RiskLevel.value : RiskLevel → String
  | .HIGH => "High Risk"
  | .MODERATE => "Moderate Risk"
  | .INCREASED => "Increased Risk"
  | .POPULATION => "Population Risk"
  | .VUS => "Variant of Uncertain Significance"

/-- The `GeneticVariant` dataclass.  Positions are `Int` (Python `int`),
allele frequencies exact rationals. -/
structure GeneticVariant where
  chromosome : String
  position : Int
  ref : String
  alt : String
  gene : String
  rsid : Option String := none
  consequence : Option String := none
  clinvar_significance : Option String := none
  gnomad_af : Option ℚ := none
  classification : Option String := none
  risk_level : Option String := none
deriving DecidableEq

/-! ## Primary parser (`GeneticAnalyzer._parse_vcf_simple`) -/

/-- Chromosome normalization (lines 178-180):
`parts[0].replace('chr','').replace('Chr','').replace('CHR','')`, then
`chrom.split(':')[0] if ':' in chrom else chrom`. -/
def normalizeChrom (s : String) : String :=
  let c := pyReplace (pyReplace (pyReplace s "chr" "") "Chr" "") "CHR" ""
  if containsSub c ":" then beforeChar ':' c else c

/-- The first gene of `BREAST_CANCER_GENES` whose chromosome equals the
normalized label and whose inclusive interval contains the position
(the `for gene_name, coords ... break` loop, lines 198-202). -/
def geneFor (chrom : String) (pos : Int) : Option String :=
  (BREAST_CANCER_GENES.find? fun g =>
    chrom == g.2.1 && g.2.2.1 ≤ pos && pos ≤ g.2.2.2).map (·.1)

/-- INFO-field hint extraction (lines 210-224): split on `;`, inspect
each `key=value` pair; `CSQ`/`Consequence` set the consequence hint
(text before the first `|` when one is present), `CLNSIG` or any key
containing `clinvar` (lower-cased) sets the significance hint,
`AF`/`gnomad_af` sets the frequency hint when the value parses as a
float.  Later fields overwrite earlier ones, as repeated assignment
does in the source loop. -/
def parseInfo (info : String) : Option String × Option String × Option ℚ :=
  (pySplit ';' info).foldl
    (fun st fld =>
      if containsSub fld "=" then
        let key := beforeChar '=' fld
        let value : String := ⟨(fld.data.dropWhile (· ≠ '=')).drop 1⟩
        if key == "CSQ" || key == "Consequence" then
          (some (if containsSub value "|" then beforeChar '|' value else value), st.2.1, st.2.2)
        else if key == "CLNSIG" || containsSub (pyLower key) "clinvar" then
          (st.1, some value, st.2.2)
        else if key == "AF" || key == "gnomad_af" then
          match parseFloat value with
          | some f => (st.1, st.2.1, some f)
          | none => st
        else st
      else st)
    (none, none, none)

/-- One already-stripped data line of the primary parser (lines
171-242): tab split, skip when fewer than 5 fields or the position does
not parse, expand comma-separated alternate alleles, keep only alleles
whose (normalized chromosome, position) lies in a gene interval, and
attach INFO hints when an 8th field exists.  `consequence or 'unknown'`
makes an absent or empty hint the literal `"unknown"`. -/
def processDataLine (l : String) : List GeneticVariant :=
  let parts := pySplit '\t' l
  if parts.length < 5 then []
  else
    let chrom := normalizeChrom (parts.getD 0 "")
    match parseInt (parts.getD 1 "") with
    | none => []
    | some pos =>
      let variant_id := parts.getD 2 "."
      let ref := parts.getD 3 ""
      let alt := parts.getD 4 ""
      (pySplit ',' alt).flatMap fun single_alt =>
        match geneFor chrom pos with
        | none => []
        | some gene =>
          let hints := if parts.length > 7 then parseInfo (parts.getD 7 "") else (none, none, none)
          [{ chromosome := chrom, position := pos, ref := ref, alt := single_alt,
             gene := gene,
             rsid := if pyStartsWith variant_id "rs" then some variant_id else none,
             consequence := some (pyOrStr hints.1 "unknown"),
             clinvar_significance := hints.2.1,
             gnomad_af := hints.2.2 }]

/-- The primary parser's line loop (lines 148-242): strip each line,
skip blanks, `#` lines only toggle the header state when they start
with `#CHROM`, and data lines are processed once the header has ended. -/
def parseVcfLines : Bool → List String → List GeneticVariant
  | _, [] => []
  | inHeader, line :: rest =>
    let l := pyStrip line
    if l = "" then parseVcfLines inHeader rest
    else if pyStartsWith l "#" then
      if pyStartsWith l "#CHROM" then parseVcfLines false rest
      else parseVcfLines inHeader rest
    else if inHeader then parseVcfLines inHeader rest
    else processDataLine l ++ parseVcfLines inHeader rest

/-! ## Fallback parser (`GeneticAnalyzer._parse_vcf_fallback`) -/

/-- One line of the fallback parser (lines 256-293): no chromosome
normalization, substring tests `'17' in chrom` (etc.) with widened
position ranges, alternate-allele field kept verbatim (not comma-split),
consequence fixed to `"unknown"`, no hints.  An unparsable position is
swallowed by the `except: continue`. -/
def parseFallbackLine (line : String) : Option GeneticVariant :=
  let l := pyStrip line
  if l = "" || pyStartsWith l "#" then none
  else
    let parts := pySplit '\t' l
    if parts.length < 5 then none
    else
      match parseInt (parts.getD 1 "") with
      | none => none
      | some pos =>
        let chrom := parts.getD 0 ""
        let ref := parts.getD 3 ""
        let alt := parts.getD 4 ""
        let gene : Option String :=
          if containsSub chrom "17" && 43000000 ≤ pos && pos ≤ 43130000 then some "BRCA1"
          else if containsSub chrom "13" && 32880000 ≤ pos && pos ≤ 32980000 then some "BRCA2"
          else if containsSub chrom "16" && 23610000 ≤ pos && pos ≤ 23660000 then some "PALB2"
          else none
        gene.map fun g =>
          { chromosome := chrom, position := pos, ref := ref, alt := alt,
            gene := g, consequence := some "unknown" }

/-- The fallback parser over the whole (error-ignoring) line stream. -/
def parseVcfFallback (lines : List String) : List GeneticVariant :=
  lines.filterMap parseFallbackLine

/-! ## Annotation providers -/

/-- The annotation dict both providers return: keys
`clinvar_significance`, `gnomad_af`, `classification` (always all
present, so the dict is always truthy). -/
structure Verdict where
  clinvar_significance : String
  gnomad_af : ℚ
  classification : String
deriving DecidableEq

/-- The fixed known-pathogenic list of `_get_annotation_from_local_db`
(lines 401-404). -/
def knownPathogenic : List (Int × String × String) :=
  [ (43091995, "AG", "A"),
    (32913838, "T", "-") ]

/-- `GeneticAnalyzer._get_annotation_from_local_db` (lines 367-414):
default verdict, consequence-based rules (the `if variant.consequence:`
truthiness test skips them for `None`/`""`), then the known-pathogenic
override for BRCA1/BRCA2 at an exactly matching (position, ref, alt). -/
def getAnnotationFromLocalDb (v : GeneticVariant) : Verdict :=
  let base : Verdict :=
    { clinvar_significance := "Uncertain_significance",
      gnomad_af := pyOrQ v.gnomad_af 0.001,
      classification := "unknown" }
  let ruled : Verdict :=
    match pyStrTruthy v.consequence with
    | none => base
    | some c =>
      let cl := pyLower c
      if ["frameshift", "stop_gained", "splice_donor", "splice_acceptor"].any
          (fun t => containsSub cl t) then
        { base with classification := "pathogenic", clinvar_significance := "Pathogenic" }
      else if ["missense", "inframe"].any (fun t => containsSub cl t) then
        if ["BRCA1", "BRCA2", "TP53"].contains v.gene then
          { base with classification := "likely_pathogenic",
                      clinvar_significance := "Likely_pathogenic" }
        else
          { base with classification := "uncertain",
                      clinvar_significance := "Uncertain_significance" }
      else if ["synonymous", "intron"].any (fun t => containsSub cl t) then
        { base with classification := "benign", clinvar_significance := "Benign" }
      else base
  if ["BRCA1", "BRCA2"].contains v.gene &&
      knownPathogenic.any (fun k => v.position == k.1 && v.ref == k.2.1 && v.alt == k.2.2) then
    { ruled with classification := "pathogenic", clinvar_significance := "Pathogenic" }
  else ruled

/-- `GeneticAnalyzer._fetch_online_annotation` (lines 341-365): the MVP
stub never raises, so the `except` fallback to the local DB is dead;
it applies only the reduced two-rule heuristic and has no
known-pathogenic override. -/
def fetchOnlineVerdict (v : GeneticVariant) : Verdict :=
  let base : Verdict :=
    { clinvar_significance := "Uncertain_significance",
      gnomad_af := pyOrQ v.gnomad_af 0.001,
      classification := "unknown" }
  match pyStrTruthy v.consequence with
  | none => base
  | some c =>
    let cl := pyLower c
    if ["frameshift", "stop_gained", "splice"].any (fun t => containsSub cl t) then
      { base with classification := "likely_pathogenic",
                  clinvar_significance := "Likely_pathogenic" }
    else if containsSub cl "missense" then
      { base with classification := "benign", clinvar_significance := "Benign" }
    else base

/-- Provider selection in `_classify_variants` (lines 303-306): the
string mode `'online'` picks the online provider, anything else the
local DB. -/
def annotationFor (mode : String) (v : GeneticVariant) : Verdict :=
  if mode == "online" then fetchOnlineVerdict v else getAnnotationFromLocalDb v

/-! ## Per-variant classification (`GeneticAnalyzer._classify_variants`) -/

/-- The risk-tier decision table of lines 319-335, applied to the
verdict's significance and classification strings. -/
def classifyRisk (sig cls : String) : String :=
  let s := pyLower sig
  if ["pathogenic", "likely pathogenic"].any (fun t => containsSub s t) then
    RiskLevel.HIGH.value
  else if containsSub s "uncertain" then
    RiskLevel.VUS.value
  else if ["benign", "likely benign"].any (fun t => containsSub s t) then
    RiskLevel.POPULATION.value
  else
    let c := pyLower cls
    if containsSub c "pathogenic" then RiskLevel.HIGH.value
    else if containsSub c "benign" then RiskLevel.POPULATION.value
    else RiskLevel.VUS.value

/-- The per-variant body of `_classify_variants` (lines 301-335): fetch
the verdict, copy its fields onto the variant (the verdict dict is
non-empty, so `if annotation:` always holds; it has no `consequence`
key, so the consequence stays as parsed), and set the risk level from
the decision table. -/
def classifyOne (mode : String) (v : GeneticVariant) : GeneticVariant :=
  let ann := annotationFor mode v
  { v with clinvar_significance := some ann.clinvar_significance,
           gnomad_af := some ann.gnomad_af,
           classification := some ann.classification,
           risk_level := some (classifyRisk ann.clinvar_significance ann.classification) }

/-- `_classify_variants` over the parsed variant list. -/
def classifyVariants (mode : String) (vs : List GeneticVariant) : List GeneticVariant :=
  vs.map (classifyOne mode)

/-! ## Risk aggregation (`GeneticAnalyzer._calculate_overall_risk`) -/

/-- The high-risk gene list of line 493. -/
def highRiskGenes : List String := ["BRCA1", "BRCA2", "PALB2", "TP53"]

/-- `_calculate_overall_risk` (lines 482-503). -/
def calculateOverallRisk (variants : List GeneticVariant) : String :=
  let high := variants.filter (fun v => v.risk_level == some RiskLevel.HIGH.value)
  let moderate := variants.filter (fun v => v.risk_level == some RiskLevel.MODERATE.value)
  let vus := variants.filter (fun v => v.risk_level == some RiskLevel.VUS.value)
  if !high.isEmpty then
    if high.any (fun v => highRiskGenes.contains v.gene) then RiskLevel.HIGH.value
    else RiskLevel.MODERATE.value
  else if !moderate.isEmpty then RiskLevel.MODERATE.value
  else if !vus.isEmpty then RiskLevel.VUS.value
  else RiskLevel.POPULATION.value

/-! ## Result assembly (`_generate_results`, `_generate_error_results`) -/

/-- The `summary` block of the results dict.  Python builds the gene
sets via `list(set(...))`, whose iteration order is not specified;
they are modelled as first-occurrence deduplication.  No claim depends
on their order. -/
structure Summary where
  high_risk_genes : List String
  genes_with_variants : List String
  total_genes_analyzed : Nat
  risk_interpretation : String
  clinical_implications : List String
deriving DecidableEq

/-- One entry of the `recommendations` list. -/
structure Recommendation where
  priority : String
  recommendation : String
  rationale : String
deriving DecidableEq

/-- The results dict assembled by `_generate_results` /
`_generate_error_results`.  `analysis_date` (wall-clock `datetime.now`)
and the derived `plots` counts are not modelled; no claim concerns
them. -/
structure ResultsDict where
  patient_id : String
  overall_risk : String
  variant_count : Nat
  pathogenic_count : Nat
  vus_count : Nat
  variants : List GeneticVariant
  summary : Summary
  recommendations : List Recommendation
deriving DecidableEq

/-- `_get_risk_interpretation` (lines 524-539). -/
def getRiskInterpretation (variants : List GeneticVariant) : String :=
  let highCount := (variants.filter (fun v => v.risk_level == some RiskLevel.HIGH.value)).length
  let vusCount := (variants.filter (fun v => v.risk_level == some RiskLevel.VUS.value)).length
  if highCount > 0 then
    let genes := ((variants.filter (fun v => v.risk_level == some RiskLevel.HIGH.value)).map
      (·.gene)).eraseDups
    "Detected " ++ toString highCount ++ " pathogenic variant(s) in gene(s): " ++
      String.intercalate ", " genes ++
      ". This indicates increased hereditary breast cancer risk."
  else if vusCount > 0 then
    "Detected " ++ toString vusCount ++
      " variant(s) of uncertain significance (VUS). Genetic counseling recommended."
  else
    "No pathogenic variants detected in analyzed breast cancer genes. Risk at population level."

/-- `_get_clinical_implications` (lines 541-569). -/
def getClinicalImplications (variants : List GeneticVariant) : List String :=
  let highGenes := ((variants.filter (fun v => v.risk_level == some RiskLevel.HIGH.value)).map
    (·.gene)).eraseDups
  if highGenes.isEmpty && variants.length == 0 then
    [ "No genetic variants detected in breast cancer risk genes",
      "Continue with age-appropriate population screening" ]
  else if highGenes.contains "BRCA1" || highGenes.contains "BRCA2" then
    [ "High lifetime risk of breast cancer (45-85%)",
      "Increased risk of ovarian cancer",
      "Consider enhanced screening with MRI",
      "Referral to genetic counseling recommended" ]
  else if !highGenes.isEmpty then
    [ "Increased breast cancer risk",
      "Consider enhanced surveillance",
      "Genetic counseling recommended" ]
  else
    [ "Continue age-appropriate screening" ]

/-- `_generate_summary_statistics` (lines 505-522). -/
def generateSummaryStatistics (variants : List GeneticVariant) : Summary :=
  { high_risk_genes := ((variants.filter
      (fun v => v.risk_level == some RiskLevel.HIGH.value)).map (·.gene)).eraseDups,
    genes_with_variants := (variants.map (·.gene)).eraseDups,
    total_genes_analyzed := BREAST_CANCER_GENES.length,
    risk_interpretation := getRiskInterpretation variants,
    clinical_implications := getClinicalImplications variants }

/-- `_generate_recommendations` (lines 571-604). -/
def generateRecommendations (variants : List GeneticVariant) : List Recommendation :=
  let anyHigh := variants.any (fun v => v.risk_level == some RiskLevel.HIGH.value)
  let anyVus := variants.any (fun v => v.risk_level == some RiskLevel.VUS.value)
  if anyHigh then
    [ { priority := "high", recommendation := "Referral to genetic counseling",
        rationale := "Pathogenic variant(s) detected" },
      { priority := "high", recommendation := "Enhanced breast screening",
        rationale := "Increased breast cancer risk" } ]
  else if anyVus then
    [ { priority := "medium", recommendation := "Genetic counseling for VUS interpretation",
        rationale := "Variant of uncertain significance detected" } ]
  else
    [ { priority := "low", recommendation := "Continue routine screening",
        rationale := "No pathogenic variants detected" } ]

/-- `_generate_results` (lines 416-450) applied to the classified
variant list. -/
def generateResults (patient_id : String) (variants : List GeneticVariant) : ResultsDict :=
  { patient_id := patient_id,
    overall_risk := calculateOverallRisk variants,
    variant_count := variants.length,
    pathogenic_count := (variants.filter
      (fun v => v.risk_level == some RiskLevel.HIGH.value)).length,
    vus_count := (variants.filter
      (fun v => v.risk_level == some RiskLevel.VUS.value)).length,
    variants := variants.take 100,
    summary := generateSummaryStatistics variants,
    recommendations := generateRecommendations variants }

/-- `_generate_error_results` (lines 452-480). -/
def generateErrorResults (patient_id error_message : String) : ResultsDict :=
  { patient_id := patient_id,
    overall_risk := "Analysis Error",
    variant_count := 0,
    pathogenic_count := 0,
    vus_count := 0,
    variants := [],
    summary :=
      { high_risk_genes := [],
        genes_with_variants := [],
        total_genes_analyzed := BREAST_CANCER_GENES.length,
        risk_interpretation := "Analysis error: " ++ error_message,
        clinical_implications := ["Please check VCF file format"] },
    recommendations :=
      [ { priority := "high", recommendation := "Check VCF file format",
          rationale := "Analysis could not process the file" } ] }

/-! ## Entry point (`GeneticAnalyzer.process_vcf`) -/

/-- The states a VCF source path can be in, as the pipeline can observe
them: the path does not exist; the path exists but `open` raises (a
permission error or a directory, say) with the OS error message
`errMsg`; the file reads cleanly as a line stream; or reading raises
partway (e.g. a decode failure), in which case the fallback parser
re-reads it with errors ignored and sees `rawLines`. -/
inductive VcfSource where
  | missing
  | unopenable (errMsg : String)
  | readable (lines : List String)
  | corrupt (rawLines : List String)

/-- `_parse_vcf_simple` (lines 127-250): raises `FileNotFoundError`
(before the inner `try`) when the path does not exist; a read failure
inside the `try` is caught (line 244) and answered by the fallback
parser.  For an existing but unopenable path both the primary `open`
and then the fallback's own unguarded `open` (line 256) raise, so the
second OS error escapes `_parse_vcf_simple` itself. -/
def parseVcfSimple (vcf_path : String) (src : VcfSource) : Except String (List GeneticVariant) :=
  match src with
  | .missing => .error ("VCF file not found: " ++ vcf_path)
  | .unopenable errMsg => .error errMsg
  | .readable lines => .ok (parseVcfLines true lines)
  | .corrupt rawLines => .ok (parseVcfFallback rawLines)

/-- The `try` body of `process_vcf` (lines 101-118): parse, classify,
assemble results; the only statement that can raise is the parse. -/
def pipelineRun (mode vcf_path patient_id : String) (src : VcfSource) :
    Except String ResultsDict :=
  (parseVcfSimple vcf_path src).map fun vars =>
    generateResults patient_id (classifyVariants mode vars)

/-- `process_vcf` (lines 83-124): the `try` body with
`except Exception` converting any pipeline error into the degraded
error-results dict — the entry point itself never produces an
exception. -/
def processVcf (mode vcf_path patient_id : String) (src : VcfSource) :
    Except String ResultsDict :=
  match pipelineRun mode vcf_path patient_id src with
  | .ok r => .ok r
  | .error e => .ok (generateErrorResults patient_id e)

/-! ## Helper lemmas -/

/-- Both annotation providers put `variant.gnomad_af or 0.001` in the
verdict's frequency field, untouched by any later rule or override. -/
lemma localDb_gnomad_af (v : GeneticVariant) :
    (getAnnotationFromLocalDb v).gnomad_af = pyOrQ v.gnomad_af 0.001 := by
  unfold getAnnotationFromLocalDb
  dsimp only
  repeat' split
  all_goals rfl

lemma online_gnomad_af (v : GeneticVariant) :
    (fetchOnlineVerdict v).gnomad_af = pyOrQ v.gnomad_af 0.001 := by
  unfold fetchOnlineVerdict
  dsimp only
  repeat' split
  all_goals rfl

/-- The known-pathogenic override fires exactly on the Boolean guard of
lines 400-412, and then pins both verdict strings. -/
lemma localDb_override_fields (v : GeneticVariant)
    (h : (["BRCA1", "BRCA2"].contains v.gene &&
      knownPathogenic.any (fun k => v.position == k.1 && v.ref == k.2.1 && v.alt == k.2.2)) = true) :
    (getAnnotationFromLocalDb v).clinvar_significance = "Pathogenic" ∧
    (getAnnotationFromLocalDb v).classification = "pathogenic" := by
  unfold getAnnotationFromLocalDb
  rw [if_pos h]
  exact ⟨rfl, rfl⟩

/-- The decision table only ever produces the three tiers High, VUS,
Population. -/
lemma classifyRisk_mem_three (sig cls : String) :
    classifyRisk sig cls = RiskLevel.HIGH.value ∨
    classifyRisk sig cls = RiskLevel.VUS.value ∨
    classifyRisk sig cls = RiskLevel.POPULATION.value := by
  unfold classifyRisk
  dsimp only
  repeat' split
  · exact Or.inl rfl
  · exact Or.inr (Or.inl rfl)
  · exact Or.inr (Or.inr rfl)
  · exact Or.inl rfl
  · exact Or.inr (Or.inr rfl)
  · exact Or.inr (Or.inl rfl)

/-- A risk-level filter is empty exactly when no list member carries
that risk level. -/
lemma filter_risk_eq_nil (vs : List GeneticVariant) (r : String) :
    vs.filter (fun v => v.risk_level == some r) = [] ↔
      ∀ v ∈ vs, v.risk_level ≠ some r := by
  rw [List.filter_eq_nil_iff]
  constructor
  · intro h v hv
    have := h v hv
    simpa using this
  · intro h v hv
    simpa using h v hv

/-! ## C3: the known-pathogenic override -/

/--
C3 (counterexample): the claim says the BRCA1 43091995 AG→A override
forces tier High *regardless of the selected annotation mode*, but the
online provider (`_fetch_online_annotation`) has no known-pathogenic
override: in online mode, with no consequence hint (the parser's
`"unknown"`), that exact variant is classified as a VUS, not High.
-/
theorem known_pathogenic_override_mode_counterexample :
    (classifyOne "online"
      { chromosome := "17", position := 43091995, ref := "AG", alt := "A",
        gene := "BRCA1", consequence := some "unknown" }).risk_level =
      some RiskLevel.VUS.value ∧
    RiskLevel.VUS.value ≠ RiskLevel.HIGH.value := by
  constructor
  · rfl
  · decide

/--
C3 (amended): for every matched variant with gene BRCA1, position
43091995, ref "AG", alt "A", the *offline* (local-DB) annotation path
forces the risk tier High, regardless of which consequence hint is
present or absent; the online provider lacks the override.
-/
theorem known_pathogenic_override_offline_forces_high (v : GeneticVariant)
    (hg : v.gene = "BRCA1") (hp : v.position = 43091995)
    (hr : v.ref = "AG") (ha : v.alt = "A") :
    (classifyOne "offline" v).risk_level = some RiskLevel.HIGH.value := by
  have hguard : (["BRCA1", "BRCA2"].contains v.gene &&
      knownPathogenic.any (fun k => v.position == k.1 && v.ref == k.2.1 && v.alt == k.2.2)) = true := by
    rw [hg, hp, hr, ha]
    decide
  obtain ⟨hsig, hcls⟩ := localDb_override_fields v hguard
  have hmode : (classifyOne "offline" v).risk_level =
      some (classifyRisk (getAnnotationFromLocalDb v).clinvar_significance
        (getAnnotationFromLocalDb v).classification) := rfl
  rw [hmode, hsig, hcls]
  decide

/-- Witness for C3 (amended) at a concrete variant. -/
theorem known_pathogenic_override_offline_forces_high_witness :
    (classifyOne "offline"
      { chromosome := "17", position := 43091995, ref := "AG", alt := "A",
        gene := "BRCA1", consequence := some "missense_variant" }).risk_level =
      some RiskLevel.HIGH.value :=
  known_pathogenic_override_offline_forces_high
    { chromosome := "17", position := 43091995, ref := "AG", alt := "A",
      gene := "BRCA1", consequence := some "missense_variant" }
    rfl rfl rfl rfl

/-! ## C4: what the entry point does for a missing source file -/

/--
C4 (counterexample): the claim says `process_vcf` raises FileNotFound
to the caller for a missing path; in fact its top-level
`except Exception` catches the parser's `FileNotFoundError` and the
entry point returns the degraded error-results dict instead of
raising.
-/
theorem entry_point_missing_file_counterexample :
    processVcf "offline" "missing.vcf" "P001" VcfSource.missing =
      Except.ok (generateErrorResults "P001" "VCF file not found: missing.vcf") ∧
    processVcf "offline" "missing.vcf" "P001" VcfSource.missing ≠
      Except.error "VCF file not found: missing.vcf" := by
  refine ⟨rfl, ?_⟩
  intro h
  rw [show processVcf "offline" "missing.vcf" "P001" VcfSource.missing =
    Except.ok (generateErrorResults "P001" "VCF file not found: missing.vcf") from rfl] at h
  exact Except.noConfusion h

/--
C4 (amended): a missing source path makes the *parser*
(`_parse_vcf_simple`) raise FileNotFound; an existing but unopenable
source also makes the parser raise (the fallback's own `open`), and
these missing/unreadable-source states are the only ones in which the
parser raises — a readable or merely decode-corrupt source never does;
the public entry point catches the parser's error and returns the
degraded error result instead of raising it to the caller.
-/
theorem missing_or_unreadable_pipeline_error (mode vcf_path patient_id : String)
    (src : VcfSource) :
    parseVcfSimple vcf_path VcfSource.missing =
      Except.error ("VCF file not found: " ++ vcf_path) ∧
    (∀ errMsg, parseVcfSimple vcf_path (VcfSource.unopenable errMsg) =
      Except.error errMsg) ∧
    (∀ e, parseVcfSimple vcf_path src = Except.error e →
      src = VcfSource.missing ∨ src = VcfSource.unopenable e) ∧
    (∀ lines, ∃ vs,
      parseVcfSimple vcf_path (VcfSource.readable lines) = Except.ok vs) ∧
    (∀ rawLines, ∃ vs,
      parseVcfSimple vcf_path (VcfSource.corrupt rawLines) = Except.ok vs) ∧
    (∀ e, parseVcfSimple vcf_path src = Except.error e →
      processVcf mode vcf_path patient_id src =
        Except.ok (generateErrorResults patient_id e)) := by
  refine ⟨rfl, fun errMsg => rfl, ?_, fun lines => ⟨_, rfl⟩, fun rawLines => ⟨_, rfl⟩, ?_⟩
  · intro e he
    cases src with
    | missing =>
      exact Or.inl rfl
    | unopenable errMsg =>
      simp only [parseVcfSimple, Except.error.injEq] at he
      exact Or.inr (by rw [he])
    | readable lines => cases he
    | corrupt rawLines => cases he
  · intro e he
    simp only [processVcf, pipelineRun, he]
    rfl

/-- Witness for C4 (amended) at concrete missing and unopenable
sources. -/
theorem missing_or_unreadable_pipeline_error_witness :
    parseVcfSimple "sample.vcf" VcfSource.missing =
      Except.error ("VCF file not found: " ++ "sample.vcf") ∧
    processVcf "offline" "sample.vcf" "P001"
        (VcfSource.unopenable "Permission denied: sample.vcf") =
      Except.ok (generateErrorResults "P001" "Permission denied: sample.vcf") :=
  ⟨(missing_or_unreadable_pipeline_error "offline" "sample.vcf" "P001"
      VcfSource.missing).1,
    (missing_or_unreadable_pipeline_error "offline" "sample.vcf" "P001"
      (VcfSource.unopenable "Permission denied: sample.vcf")).2.2.2.2.2
      "Permission denied: sample.vcf" rfl⟩

/-! ## C5: soft failure of the entry point -/

/--
C5: whenever the pipeline body raises (in this embedding: produces an
error), the entry point catches it and returns the well-formed degraded
result — tier "Analysis Error", zero counts, empty variant list, and an
interpretation string carrying the error message — and the entry point
always answers with a result, never with an exception.
-/
theorem pipeline_error_degraded_result (mode vcf_path patient_id : String)
    (src : VcfSource) :
    (∃ r, processVcf mode vcf_path patient_id src = Except.ok r) ∧
    (∀ e, pipelineRun mode vcf_path patient_id src = Except.error e →
      processVcf mode vcf_path patient_id src =
        Except.ok (generateErrorResults patient_id e) ∧
      (generateErrorResults patient_id e).overall_risk = "Analysis Error" ∧
      (generateErrorResults patient_id e).variant_count = 0 ∧
      (generateErrorResults patient_id e).pathogenic_count = 0 ∧
      (generateErrorResults patient_id e).vus_count = 0 ∧
      (generateErrorResults patient_id e).variants = [] ∧
      (generateErrorResults patient_id e).summary.risk_interpretation =
        "Analysis error: " ++ e) := by
  constructor
  · cases h : pipelineRun mode vcf_path patient_id src with
    | ok r => exact ⟨r, by simp [processVcf, h]⟩
    | error e => exact ⟨generateErrorResults patient_id e, by simp [processVcf, h]⟩
  · intro e he
    refine ⟨by simp [processVcf, he], rfl, rfl, rfl, rfl, rfl, rfl⟩

/-- Witness for C5 at a concrete failing source (missing file). -/
theorem pipeline_error_degraded_result_witness :
    processVcf "offline" "x.vcf" "P7" VcfSource.missing =
      Except.ok (generateErrorResults "P7" "VCF file not found: x.vcf") ∧
    (generateErrorResults "P7" "VCF file not found: x.vcf").overall_risk =
      "Analysis Error" :=
  let h := (pipeline_error_degraded_result "offline" "x.vcf" "P7" VcfSource.missing).2
    "VCF file not found: x.vcf" rfl
  ⟨h.1, h.2.1⟩

/-! ## C7: allele-frequency defaulting -/

/--
C7 (counterexample): the claim says a present hint of 0.0 is kept; but
`variant.gnomad_af or 0.001` treats the float 0.0 as falsy, so a
present-but-zero hint is replaced by the 0.001 placeholder.
-/
theorem allele_frequency_zero_hint_counterexample :
    (getAnnotationFromLocalDb
      { chromosome := "17", position := 43050000, ref := "A", alt := "T",
        gene := "BRCA1", gnomad_af := some 0 }).gnomad_af = 0.001 ∧
    (0.001 : ℚ) ≠ 0 := by
  refine ⟨rfl, by norm_num⟩

/--
C7 (amended): the verdict's allele frequency equals the hint whenever
the hint is present *and nonzero*; when the hint is absent — or present
but exactly 0.0, which Python's `or` treats as absent — it is the fixed
placeholder 0.001.  This holds for both annotation providers.
-/
theorem allele_frequency_default_amended (v : GeneticVariant) :
    (v.gnomad_af = none →
      (getAnnotationFromLocalDb v).gnomad_af = 0.001 ∧
      (fetchOnlineVerdict v).gnomad_af = 0.001) ∧
    (v.gnomad_af = some 0 →
      (getAnnotationFromLocalDb v).gnomad_af = 0.001 ∧
      (fetchOnlineVerdict v).gnomad_af = 0.001) ∧
    (∀ q : ℚ, v.gnomad_af = some q → q ≠ 0 →
      (getAnnotationFromLocalDb v).gnomad_af = q ∧
      (fetchOnlineVerdict v).gnomad_af = q) := by
  refine ⟨?_, ?_, ?_⟩
  · intro h
    rw [localDb_gnomad_af, online_gnomad_af, h]
    exact ⟨rfl, rfl⟩
  · intro h
    rw [localDb_gnomad_af, online_gnomad_af, h]
    constructor <;> simp [pyOrQ]
  · intro q h hq
    rw [localDb_gnomad_af, online_gnomad_af, h]
    constructor <;> simp [pyOrQ, hq]

/-- Witness for C7 (amended) at a concrete variant with a nonzero hint. -/
theorem allele_frequency_default_amended_witness :
    (getAnnotationFromLocalDb
      { chromosome := "17", position := 43050000, ref := "A", alt := "T",
        gene := "BRCA1", gnomad_af := some (1/2) }).gnomad_af = 1/2 :=
  ((allele_frequency_default_amended
    { chromosome := "17", position := 43050000, ref := "A", alt := "T",
      gene := "BRCA1", gnomad_af := some (1/2) }).2.2 (1/2) rfl (by norm_num)).1

/-! ## C1: the overall risk tier -/

/--
C1: the overall tier is High iff some classified variant has tier High
with gene among BRCA1/BRCA2/PALB2/TP53; High-tier variants only in
other genes give Moderate; otherwise Moderate on any Moderate-tier
variant, else Uncertain (VUS) on any Uncertain-tier variant, else
Population.
-/
theorem overall_risk_tier_characterization (vs : List GeneticVariant) :
    (calculateOverallRisk vs = RiskLevel.HIGH.value ↔
      ∃ v ∈ vs, v.risk_level = some RiskLevel.HIGH.value ∧ v.gene ∈ highRiskGenes) ∧
    ((∃ v ∈ vs, v.risk_level = some RiskLevel.HIGH.value) →
      (∀ v ∈ vs, v.risk_level = some RiskLevel.HIGH.value → v.gene ∉ highRiskGenes) →
      calculateOverallRisk vs = RiskLevel.MODERATE.value) ∧
    ((∀ v ∈ vs, v.risk_level ≠ some RiskLevel.HIGH.value) →
      (∃ v ∈ vs, v.risk_level = some RiskLevel.MODERATE.value) →
      calculateOverallRisk vs = RiskLevel.MODERATE.value) ∧
    ((∀ v ∈ vs, v.risk_level ≠ some RiskLevel.HIGH.value ∧
        v.risk_level ≠ some RiskLevel.MODERATE.value) →
      (∃ v ∈ vs, v.risk_level = some RiskLevel.VUS.value) →
      calculateOverallRisk vs = RiskLevel.VUS.value) ∧
    ((∀ v ∈ vs, v.risk_level ≠ some RiskLevel.HIGH.value ∧
        v.risk_level ≠ some RiskLevel.MODERATE.value ∧
        v.risk_level ≠ some RiskLevel.VUS.value) →
      calculateOverallRisk vs = RiskLevel.POPULATION.value) := by
  refine ⟨?_, ?_, ?_, ?_, ?_⟩
  · unfold calculateOverallRisk
    dsimp only
    split_ifs with h1 h2
    · simp only [List.any_eq_true, List.mem_filter, beq_iff_eq] at h2
      constructor
      · intro _
        obtain ⟨v, ⟨hv, hr⟩, hq⟩ := h2
        exact ⟨v, hv, hr, by simpa using hq⟩
      · intro _
        rfl
    · constructor
      · intro h
        exact absurd h (by decide)
      · rintro ⟨v, hv, hr, hg⟩
        exact absurd (by
          simp only [List.any_eq_true, List.mem_filter, beq_iff_eq]
          exact ⟨v, ⟨hv, hr⟩, by simpa using hg⟩) h2
    all_goals
      (constructor
       · intro h
         exact absurd h (by decide)
       · rintro ⟨v, hv, hr, hg⟩
         exact absurd (by simp [List.isEmpty_iff, List.filter_eq_nil_iff]
                          exact ⟨v, hv, by simp [hr]⟩) h1)
  · intro hex hall
    have hne : vs.filter (fun v => v.risk_level == some RiskLevel.HIGH.value) ≠ [] := by
      intro hnil
      rw [List.filter_eq_nil_iff] at hnil
      obtain ⟨v, hv, hr⟩ := hex
      exact hnil v hv (by simp [hr])
    have hany : (vs.filter (fun v => v.risk_level == some RiskLevel.HIGH.value)).any
        (fun v => highRiskGenes.contains v.gene) = false := by
      rw [← Bool.not_eq_true, List.any_eq_true]
      rintro ⟨v, hvf, hq⟩
      rw [List.mem_filter] at hvf
      exact hall v hvf.1 (by simpa using hvf.2) (by simpa using hq)
    unfold calculateOverallRisk
    dsimp only
    split_ifs with h1 h2
    · rw [hany] at h2
      cases h2
    · rfl
    all_goals
      (exact absurd (by simpa [List.isEmpty_iff] using h1) hne)
  · intro hnh hex
    have hh : vs.filter (fun v => v.risk_level == some RiskLevel.HIGH.value) = [] := by
      rw [List.filter_eq_nil_iff]
      intro v hv
      simpa using hnh v hv
    have hm : vs.filter (fun v => v.risk_level == some RiskLevel.MODERATE.value) ≠ [] := by
      intro hnil
      rw [List.filter_eq_nil_iff] at hnil
      obtain ⟨v, hv, hr⟩ := hex
      exact hnil v hv (by simp [hr])
    unfold calculateOverallRisk
    dsimp only
    rw [hh]
    split_ifs with h1 h2 h3 h4
    · exact absurd h1 (by decide)
    · exact absurd h1 (by decide)
    · rfl
    · exact absurd (by simpa [List.isEmpty_iff] using h3) hm
    · exact absurd (by simpa [List.isEmpty_iff] using h3) hm
  · intro hnhm hex
    have hh : vs.filter (fun v => v.risk_level == some RiskLevel.HIGH.value) = [] := by
      rw [List.filter_eq_nil_iff]
      intro v hv
      simpa using (hnhm v hv).1
    have hm : vs.filter (fun v => v.risk_level == some RiskLevel.MODERATE.value) = [] := by
      rw [List.filter_eq_nil_iff]
      intro v hv
      simpa using (hnhm v hv).2
    have hv' : vs.filter (fun v => v.risk_level == some RiskLevel.VUS.value) ≠ [] := by
      intro hnil
      rw [List.filter_eq_nil_iff] at hnil
      obtain ⟨v, hv, hr⟩ := hex
      exact hnil v hv (by simp [hr])
    unfold calculateOverallRisk
    dsimp only
    rw [hh, hm]
    split_ifs with h1 h2 h3
    · exact absurd h1 (by decide)
    · exact absurd h1 (by decide)
    · rfl
    · exact absurd (by simpa [List.isEmpty_iff] using h3) hv'
  · intro hall
    have hh : vs.filter (fun v => v.risk_level == some RiskLevel.HIGH.value) = [] := by
      rw [List.filter_eq_nil_iff]
      intro v hv
      simpa using (hall v hv).1
    have hm : vs.filter (fun v => v.risk_level == some RiskLevel.MODERATE.value) = [] := by
      rw [List.filter_eq_nil_iff]
      intro v hv
      simpa using (hall v hv).2.1
    have hv' : vs.filter (fun v => v.risk_level == some RiskLevel.VUS.value) = [] := by
      rw [List.filter_eq_nil_iff]
      intro v hv
      simpa using (hall v hv).2.2
    unfold calculateOverallRisk
    dsimp only
    rw [hh, hm, hv']
    rfl

/-- Witness for C1 at a concrete one-variant list. -/
theorem overall_risk_tier_characterization_witness :
    calculateOverallRisk
      [{ chromosome := "17", position := 43091995, ref := "AG", alt := "A",
         gene := "BRCA1", risk_level := some RiskLevel.HIGH.value }] =
      RiskLevel.HIGH.value :=
  (overall_risk_tier_characterization
    [{ chromosome := "17", position := 43091995, ref := "AG", alt := "A",
       gene := "BRCA1", risk_level := some RiskLevel.HIGH.value }]).1.mpr
    ⟨{ chromosome := "17", position := 43091995, ref := "AG", alt := "A",
       gene := "BRCA1", risk_level := some RiskLevel.HIGH.value },
      by simp, rfl, by decide⟩

/-! ## C2: the per-variant risk decision table -/

/--
C2: on the lower-cased significance string, "pathogenic"/"likely
pathogenic" gives High, else "uncertain" gives Uncertain, else
"benign"/"likely benign" gives Population; only when none match does
the tier fall back to the effect string ("pathogenic" High, "benign"
Population, else Uncertain) — and the pipeline assigns exactly
`classifyRisk` of the verdict's two strings.
-/
theorem variant_risk_decision_table (sig cls : String) :
    ((containsSub (pyLower sig) "pathogenic" ||
        containsSub (pyLower sig) "likely pathogenic") = true →
      classifyRisk sig cls = RiskLevel.HIGH.value) ∧
    ((containsSub (pyLower sig) "pathogenic" ||
        containsSub (pyLower sig) "likely pathogenic") = false →
      containsSub (pyLower sig) "uncertain" = true →
      classifyRisk sig cls = RiskLevel.VUS.value) ∧
    ((containsSub (pyLower sig) "pathogenic" ||
        containsSub (pyLower sig) "likely pathogenic") = false →
      containsSub (pyLower sig) "uncertain" = false →
      (containsSub (pyLower sig) "benign" ||
        containsSub (pyLower sig) "likely benign") = true →
      classifyRisk sig cls = RiskLevel.POPULATION.value) ∧
    ((containsSub (pyLower sig) "pathogenic" ||
        containsSub (pyLower sig) "likely pathogenic") = false →
      containsSub (pyLower sig) "uncertain" = false →
      (containsSub (pyLower sig) "benign" ||
        containsSub (pyLower sig) "likely benign") = false →
      containsSub (pyLower cls) "pathogenic" = true →
      classifyRisk sig cls = RiskLevel.HIGH.value) ∧
    ((containsSub (pyLower sig) "pathogenic" ||
        containsSub (pyLower sig) "likely pathogenic") = false →
      containsSub (pyLower sig) "uncertain" = false →
      (containsSub (pyLower sig) "benign" ||
        containsSub (pyLower sig) "likely benign") = false →
      containsSub (pyLower cls) "pathogenic" = false →
      containsSub (pyLower cls) "benign" = true →
      classifyRisk sig cls = RiskLevel.POPULATION.value) ∧
    ((containsSub (pyLower sig) "pathogenic" ||
        containsSub (pyLower sig) "likely pathogenic") = false →
      containsSub (pyLower sig) "uncertain" = false →
      (containsSub (pyLower sig) "benign" ||
        containsSub (pyLower sig) "likely benign") = false →
      containsSub (pyLower cls) "pathogenic" = false →
      containsSub (pyLower cls) "benign" = false →
      classifyRisk sig cls = RiskLevel.VUS.value) ∧
    (∀ (mode : String) (v : GeneticVariant),
      (classifyOne mode v).risk_level =
        some (classifyRisk (annotationFor mode v).clinvar_significance
          (annotationFor mode v).classification)) := by
  refine ⟨?_, ?_, ?_, ?_, ?_, ?_, fun mode v => rfl⟩
  all_goals
    (intros
     simp only [classifyRisk, List.any_cons, List.any_nil, Bool.or_false, *]
     rfl)

/-- Witness for C2 at concrete verdict strings. -/
theorem variant_risk_decision_table_witness :
    classifyRisk "Benign" "unknown" = RiskLevel.POPULATION.value :=
  (variant_risk_decision_table "Benign" "unknown").2.2.1
    (by decide) (by decide) (by decide)

/-! ## C9: only three tiers are ever assigned -/

/-- A classified variant's risk level is `classifyRisk` of its verdict,
hence one of the three produced tiers. -/
lemma classified_risk_cases (mode : String) (v : GeneticVariant) :
    (classifyOne mode v).risk_level = some RiskLevel.HIGH.value ∨
    (classifyOne mode v).risk_level = some RiskLevel.VUS.value ∨
    (classifyOne mode v).risk_level = some RiskLevel.POPULATION.value := by
  have h : (classifyOne mode v).risk_level =
      some (classifyRisk (annotationFor mode v).clinvar_significance
        (annotationFor mode v).classification) := rfl
  rw [h]
  rcases classifyRisk_mem_three (annotationFor mode v).clinvar_significance
    (annotationFor mode v).classification with h3 | h3 | h3
  · exact Or.inl (by rw [h3])
  · exact Or.inr (Or.inl (by rw [h3]))
  · exact Or.inr (Or.inr (by rw [h3]))

/-- Classified output contains no variant at any tier other than the
three produced ones. -/
lemma classified_filter_nil (mode : String) (vs : List GeneticVariant) (r : String)
    (h1 : r ≠ RiskLevel.HIGH.value) (h2 : r ≠ RiskLevel.VUS.value)
    (h3 : r ≠ RiskLevel.POPULATION.value) :
    (classifyVariants mode vs).filter (fun v => v.risk_level == some r) = [] := by
  rw [List.filter_eq_nil_iff]
  intro v hv
  obtain ⟨u, _, rfl⟩ := List.mem_map.mp hv
  rcases classified_risk_cases mode u with hc | hc | hc <;>
    simp [hc, Option.some_inj, h1.symm, h2.symm, h3.symm]

/-- `_calculate_overall_risk` with the Moderate-tier branch removed;
stated from the spec reading for comparison: on classified outputs the
Moderate branch can never be the deciding case. -/
def calculateOverallRiskDropModerate (variants : List GeneticVariant) : String :=
  let high := variants.filter (fun v => v.risk_level == some RiskLevel.HIGH.value)
  let vus := variants.filter (fun v => v.risk_level == some RiskLevel.VUS.value)
  if !high.isEmpty then
    if high.any (fun v => highRiskGenes.contains v.gene) then RiskLevel.HIGH.value
    else RiskLevel.MODERATE.value
  else if !vus.isEmpty then RiskLevel.VUS.value
  else RiskLevel.POPULATION.value

/--
C9: in both modes every pipeline-output variant carries one of the
three tiers High / Uncertain (VUS) / Population — Moderate and
Increased are never assigned — and consequently the aggregator computes
the same overall tier as the aggregator with its Moderate branch
deleted.
-/
theorem variant_tiers_three_valued (mode : String) (vs : List GeneticVariant) :
    (∀ v ∈ classifyVariants mode vs,
      v.risk_level = some RiskLevel.HIGH.value ∨
      v.risk_level = some RiskLevel.VUS.value ∨
      v.risk_level = some RiskLevel.POPULATION.value) ∧
    (classifyVariants mode vs).filter
      (fun v => v.risk_level == some RiskLevel.MODERATE.value) = [] ∧
    (classifyVariants mode vs).filter
      (fun v => v.risk_level == some RiskLevel.INCREASED.value) = [] ∧
    calculateOverallRisk (classifyVariants mode vs) =
      calculateOverallRiskDropModerate (classifyVariants mode vs) := by
  refine ⟨?_, ?_, ?_, ?_⟩
  · intro v hv
    obtain ⟨u, _, rfl⟩ := List.mem_map.mp hv
    exact classified_risk_cases mode u
  · exact classified_filter_nil mode vs _ (by decide) (by decide) (by decide)
  · exact classified_filter_nil mode vs _ (by decide) (by decide) (by decide)
  · have hmod := classified_filter_nil mode vs RiskLevel.MODERATE.value
      (by decide) (by decide) (by decide)
    unfold calculateOverallRisk calculateOverallRiskDropModerate
    dsimp only
    rw [hmod]
    rfl

/-- Witness for C9 on a concrete classified list. -/
theorem variant_tiers_three_valued_witness :
    calculateOverallRisk (classifyVariants "offline"
      [{ chromosome := "17", position := 43091995, ref := "AG", alt := "A",
         gene := "BRCA1", consequence := some "unknown" }]) =
      calculateOverallRiskDropModerate (classifyVariants "offline"
        [{ chromosome := "17", position := 43091995, ref := "AG", alt := "A",
           gene := "BRCA1", consequence := some "unknown" }]) :=
  (variant_tiers_three_valued "offline"
    [{ chromosome := "17", position := 43091995, ref := "AG", alt := "A",
       gene := "BRCA1", consequence := some "unknown" }]).2.2.2

/-! ## C8: multi-allelic records split into one candidate per allele -/

/--
C8: a data line whose position lies in a gene interval and whose
alternate-allele field is "A,G" yields exactly two matched variants
agreeing on chromosome, position, reference, gene, identifier and all
hints, differing only in the alternate allele.
-/
theorem multi_allelic_split_two_variants (l : String) (g : String) (pos : Int)
    (h5 : 5 ≤ (pySplit '\t' l).length)
    (hpos : parseInt ((pySplit '\t' l).getD 1 "") = some pos)
    (halt : (pySplit '\t' l).getD 4 "" = "A,G")
    (hg : geneFor (normalizeChrom ((pySplit '\t' l).getD 0 "")) pos = some g) :
    ∃ v : GeneticVariant,
      processDataLine l = [v, { v with alt := "G" }] ∧ v.alt = "A" := by
  have h5' : ¬ (pySplit '\t' l).length < 5 := by omega
  unfold processDataLine
  dsimp only
  rw [if_neg h5', hpos, halt]
  dsimp only
  rw [hg]
  have hsplit : pySplit ',' "A,G" = ["A", "G"] := rfl
  rw [hsplit]
  simp only [List.flatMap_cons, List.flatMap_nil, List.append_nil]
  exact ⟨_, rfl, rfl⟩

/-- Witness for C8 at a concrete BRCA1-interval data line. -/
theorem multi_allelic_split_two_variants_witness :
    ∃ v : GeneticVariant,
      processDataLine "17\t43100000\trs1\tC\tA,G\t100\tPASS\tCSQ=missense_variant" =
        [v, { v with alt := "G" }] ∧ v.alt = "A" :=
  multi_allelic_split_two_variants
    "17\t43100000\trs1\tC\tA,G\t100\tPASS\tCSQ=missense_variant"
    "BRCA1" 43100000 (by decide) (by decide) (by decide) (by decide)

/-! ## C10: the fallback parser -/

/-- Everything `_parse_vcf_fallback` can say about one produced
variant: gene restricted to BRCA1/BRCA2/PALB2 by the substring/widened-
range tests on the unnormalized label, alternate field verbatim,
consequence "unknown", every annotation hint absent. -/
lemma parseFallbackLine_fields (line : String) (v : GeneticVariant)
    (h : parseFallbackLine line = some v) :
    (v.gene = "BRCA1" ∨ v.gene = "BRCA2" ∨ v.gene = "PALB2") ∧
    v.consequence = some "unknown" ∧
    v.rsid = none ∧ v.clinvar_significance = none ∧ v.gnomad_af = none ∧
    v.classification = none ∧ v.risk_level = none ∧
    v.alt = (pySplit '\t' (pyStrip line)).getD 4 "" ∧
    v.chromosome = (pySplit '\t' (pyStrip line)).getD 0 "" ∧
    (v.gene = "BRCA1" ↔
      (containsSub v.chromosome "17" = true ∧
        43000000 ≤ v.position ∧ v.position ≤ 43130000)) := by
  unfold parseFallbackLine at h
  dsimp only at h
  split at h
  · cases h
  · split at h
    · cases h
    · split at h
      · cases h
      · rename_i pos hp
        split at h
        · rename_i hc1
          simp only [Option.map_some', Option.some.injEq] at h
          subst h
          simp only [Bool.and_eq_true, decide_eq_true_eq] at hc1
          refine ⟨Or.inl rfl, rfl, rfl, rfl, rfl, rfl, rfl, rfl, rfl, ?_⟩
          exact ⟨fun _ => ⟨hc1.1.1, hc1.1.2, hc1.2⟩, fun _ => rfl⟩
        · rename_i hc1
          split at h
          · simp only [Option.map_some', Option.some.injEq] at h
            subst h
            refine ⟨Or.inr (Or.inl rfl), rfl, rfl, rfl, rfl, rfl, rfl, rfl, rfl, ?_⟩
            constructor
            · intro habs
              simp at habs
            · rintro ⟨hcont, hle, hge⟩
              dsimp only at hcont hle hge
              exact absurd (by rw [hcont]; simp [hle, hge]) hc1
          · rename_i hc2
            split at h
            · simp only [Option.map_some', Option.some.injEq] at h
              subst h
              refine ⟨Or.inr (Or.inr rfl), rfl, rfl, rfl, rfl, rfl, rfl, rfl, rfl, ?_⟩
              constructor
              · intro habs
                simp at habs
              · rintro ⟨hcont, hle, hge⟩
                dsimp only at hcont hle hge
                exact absurd (by rw [hcont]; simp [hle, hge]) hc1
            · cases h

/--
C10: every variant the fallback parser returns has gene BRCA1, BRCA2 or
PALB2 only, assigned by substring containment of the gene's chromosome
digits in the unnormalized label together with the widened position
ranges (any label containing "17" with position in
[43000000, 43130000] gives BRCA1), keeps the alternate-allele field
unsplit, and carries consequence "unknown" with no annotation hints.
-/
theorem fallback_parser_invariants (lines : List String) (v : GeneticVariant)
    (hv : v ∈ parseVcfFallback lines) :
    (v.gene = "BRCA1" ∨ v.gene = "BRCA2" ∨ v.gene = "PALB2") ∧
    v.consequence = some "unknown" ∧
    v.rsid = none ∧ v.clinvar_significance = none ∧ v.gnomad_af = none ∧
    v.classification = none ∧ v.risk_level = none ∧
    (v.gene = "BRCA1" ↔
      (containsSub v.chromosome "17" = true ∧
        43000000 ≤ v.position ∧ v.position ≤ 43130000)) ∧
    ∃ l ∈ lines, parseFallbackLine l = some v ∧
      v.alt = (pySplit '\t' (pyStrip l)).getD 4 "" ∧
      v.chromosome = (pySplit '\t' (pyStrip l)).getD 0 "" := by
  obtain ⟨l, hl, hparse⟩ := List.mem_filterMap.mp hv
  obtain ⟨hgene, hcons, hrsid, hclin, haf, hcls, hrisk, halt, hchrom, hiff⟩ :=
    parseFallbackLine_fields l v hparse
  exact ⟨hgene, hcons, hrsid, hclin, haf, hcls, hrisk, hiff,
    l, hl, hparse, halt, hchrom⟩

/-- Witness for C10 at a concrete line with a comma-separated alternate
field. -/
theorem fallback_parser_invariants_witness :
    ({ chromosome := "chr17", position := 43050000, ref := "A", alt := "A,G",
       gene := "BRCA1", consequence := some "unknown" } : GeneticVariant).alt = "A,G" ∧
    (({ chromosome := "chr17", position := 43050000, ref := "A", alt := "A,G",
        gene := "BRCA1", consequence := some "unknown" } : GeneticVariant).gene = "BRCA1" ∨
      ({ chromosome := "chr17", position := 43050000, ref := "A", alt := "A,G",
         gene := "BRCA1", consequence := some "unknown" } : GeneticVariant).gene = "BRCA2" ∨
      ({ chromosome := "chr17", position := 43050000, ref := "A", alt := "A,G",
         gene := "BRCA1", consequence := some "unknown" } : GeneticVariant).gene = "PALB2") :=
  ⟨rfl,
    (fallback_parser_invariants ["chr17\t43050000\t.\tA\tA,G"]
      { chromosome := "chr17", position := 43050000, ref := "A", alt := "A,G",
        gene := "BRCA1", consequence := some "unknown" }
      (by decide)).1⟩


/-! ## C6: chromosome-label normalization -/

/-- A pattern is a prefix of itself followed by anything. -/
lemma isPrefixOf_append_self (pat l : List Char) :
    pat.isPrefixOf (pat ++ l) = true := by
  induction pat with
  | nil => simp [List.isPrefixOf]
  | cons a as ih => simp [List.isPrefixOf, ih]

/-- `replaceLAux` leaves a list alone when the pattern's first
character never occurs in it. -/
lemma replaceLAux_no_first (p : Char) (pr rep : List Char) :
    ∀ (fuel : Nat) (l : List Char), l.length ≤ fuel → (∀ c ∈ l, c ≠ p) →
      replaceLAux (p :: pr) rep fuel l = l := by
  intro fuel
  induction fuel with
  | zero =>
    intro l hl _
    cases l with
    | nil => rfl
    | cons c cs => simp at hl
  | succ fuel ih =>
    intro l hl hall
    cases l with
    | nil => rfl
    | cons c cs =>
      rw [replaceLAux, if_neg]
      · exact congrArg (c :: ·)
          (ih cs (by simpa using Nat.le_of_succ_le_succ (by simpa using hl))
            (fun d hd => hall d (List.mem_cons_of_mem _ hd)))
      · rintro ⟨-, hpre⟩
        simp only [List.isPrefixOf, Bool.and_eq_true, beq_iff_eq] at hpre
        exact hall c (List.mem_cons_self c cs) hpre.1.symm

/-- `replaceLAux` removes a leading occurrence of the pattern. -/
lemma replaceLAux_strip (p : Char) (pr rep : List Char) (fuel : Nat) (l : List Char) :
    replaceLAux (p :: pr) rep (fuel + 1) ((p :: pr) ++ l) =
      rep ++ replaceLAux (p :: pr) rep fuel l := by
  show replaceLAux (p :: pr) rep (fuel + 1) (p :: (pr ++ l)) = _
  rw [replaceLAux, if_pos]
  · rw [show p :: (pr ++ l) = (p :: pr) ++ l from rfl, List.drop_left]
  · exact ⟨List.cons_ne_nil p pr, isPrefixOf_append_self (p :: pr) l⟩

/-- `replaceL` strips an exact pattern occurrence at the front when the
pattern's first character does not reappear. -/
lemma replaceL_strip_front (p : Char) (pr l : List Char)
    (hl : ∀ c ∈ l, c ≠ p) : replaceL (p :: pr) [] ((p :: pr) ++ l) = l := by
  unfold replaceL
  rw [show ((p :: pr) ++ l).length = (pr.length + l.length) + 1 from by
    rw [List.length_append, List.length_cons]; omega]
  rw [replaceLAux_strip]
  rw [replaceLAux_no_first p pr [] (pr.length + l.length) l (by omega) hl]
  rfl

/-- `replaceL` is the identity when the pattern's first character never
occurs. -/
lemma replaceL_no_first (p : Char) (pr l : List Char)
    (hl : ∀ c ∈ l, c ≠ p) : replaceL (p :: pr) [] l = l :=
  replaceLAux_no_first p pr [] l.length l (Nat.le_refl _) hl

/-- `replaceL` keeps a head character whose continuation breaks the
pattern, provided the pattern's first character does not occur later. -/
lemma replaceL_stuck_head (p : Char) (pr : List Char) (c : Char) (cs : List Char)
    (hpre : ((p :: pr).isPrefixOf (c :: cs)) = false)
    (hrest : ∀ x ∈ cs, x ≠ p) :
    replaceL (p :: pr) [] (c :: cs) = c :: cs := by
  unfold replaceL
  rw [show (c :: cs).length = cs.length + 1 from rfl, replaceLAux, if_neg]
  · rw [replaceLAux_no_first p pr [] cs.length cs (Nat.le_refl _) hrest]
  · rintro ⟨-, hp⟩
    rw [hpre] at hp
    cases hp

/-- Substring search fails when the pattern's first character never
occurs. -/
lemma containsL_no_first (p : Char) (pr l : List Char)
    (h : ∀ c ∈ l, c ≠ p) : containsL (p :: pr) l = false := by
  induction l with
  | nil => rfl
  | cons c cs ih =>
    rw [containsL]
    have hpre : ((p :: pr).isPrefixOf (c :: cs)) = false := by
      have hc : (p == c) = false := by
        simp only [beq_eq_false_iff_ne, ne_eq]
        exact fun hpc => h c (List.mem_cons_self c cs) hpc.symm
      simp [List.isPrefixOf, hc]
    rw [hpre, ih (fun d hd => h d (List.mem_cons_of_mem _ hd))]
    rfl

/-- A single-character pattern is found when the character occurs. -/
lemma containsL_single_mem (ch : Char) (l₁ l₂ : List Char) :
    containsL [ch] (l₁ ++ ch :: l₂) = true := by
  induction l₁ with
  | nil =>
    rw [List.nil_append, containsL]
    simp [List.isPrefixOf]
  | cons c cs ih =>
    rw [List.cons_append, containsL, ih]
    simp

/-- `takeWhile (· ≠ sep)` recovers the part before the separator. -/
lemma takeWhile_before_sep (sep : Char) (s t : List Char)
    (hs : ∀ c ∈ s, c ≠ sep) :
    (s ++ sep :: t).takeWhile (fun c => c ≠ sep) = s := by
  induction s with
  | nil => simp
  | cons c cs ih =>
    have hc : c ≠ sep := hs c (List.mem_cons_self c cs)
    rw [List.cons_append, List.takeWhile_cons, if_pos (by simp [hc])]
    rw [ih (fun d hd => hs d (List.mem_cons_of_mem _ hd))]

/--
C6 (counterexample): the claim says any casing of the "chr" prefix,
e.g. "cHr", is stripped; but `replace` handles only the exact strings
"chr", "Chr", "CHR", so the label "cHr17" is left untouched instead of
becoming "17".
-/
theorem chrom_normalization_counterexample :
    normalizeChrom "cHr17" = "cHr17" ∧ normalizeChrom "cHr17" ≠ "17" := by
  constructor
  · rfl
  · intro h
    rw [show normalizeChrom "cHr17" = "cHr17" from rfl] at h
    exact absurd h (by decide)

/--
C6 (amended): normalization removes occurrences of the three exact
strings "chr", "Chr" and "CHR" (so those prefixes, in those casings,
are stripped) and keeps only the part before the first colon; other
mixed casings such as "cHr" are not stripped.
-/
theorem chrom_normalization_amended (s t : String)
    (hs : ∀ c ∈ s.data, c.isDigit = true)
    (ht : ∀ c ∈ t.data, c.isDigit = true) :
    normalizeChrom ("chr" ++ s) = s ∧
    normalizeChrom ("Chr" ++ s) = s ∧
    normalizeChrom ("CHR" ++ s) = s ∧
    normalizeChrom ("cHr" ++ s) = "cHr" ++ s ∧
    normalizeChrom (s ++ ":" ++ t) = s := by
  have hd : ∀ x ∈ s.data, x ≠ 'c' ∧ x ≠ 'C' ∧ x ≠ ':' := by
    intro x hx
    have hdig := hs x hx
    refine ⟨?_, ?_, ?_⟩ <;> (rintro rfl; exact absurd hdig (by decide))
  have hcolon : containsSub s ":" = false :=
    containsL_no_first ':' [] s.data (fun x hx => (hd x hx).2.2)
  refine ⟨?_, ?_, ?_, ?_, ?_⟩
  · have step1 : pyReplace ("chr" ++ s) "chr" "" = s := by
      show String.mk (replaceL ['c', 'h', 'r'] [] ("chr" ++ s).data) = s
      rw [show ("chr" ++ s).data = ['c', 'h', 'r'] ++ s.data from by
            rw [String.data_append],
          replaceL_strip_front 'c' ['h', 'r'] s.data (fun x hx => (hd x hx).1)]
    have step2 : pyReplace s "Chr" "" = s := by
      show String.mk (replaceL ['C', 'h', 'r'] [] s.data) = s
      rw [replaceL_no_first 'C' ['h', 'r'] s.data (fun x hx => (hd x hx).2.1)]
    have step3 : pyReplace s "CHR" "" = s := by
      show String.mk (replaceL ['C', 'H', 'R'] [] s.data) = s
      rw [replaceL_no_first 'C' ['H', 'R'] s.data (fun x hx => (hd x hx).2.1)]
    unfold normalizeChrom
    dsimp only
    rw [step1, step2, step3, hcolon]
    rfl
  · have step1 : pyReplace ("Chr" ++ s) "chr" "" = "Chr" ++ s := by
      show String.mk (replaceL ['c', 'h', 'r'] [] ("Chr" ++ s).data) = "Chr" ++ s
      rw [show ("Chr" ++ s).data = 'C' :: 'h' :: 'r' :: s.data from by
            rw [String.data_append]; rfl]
      rw [replaceL_no_first 'c' ['h', 'r'] ('C' :: 'h' :: 'r' :: s.data) ?_]
      · rw [show 'C' :: 'h' :: 'r' :: s.data = ("Chr" ++ s).data from by
              rw [String.data_append]; rfl]
      · intro x hx
        simp only [List.mem_cons] at hx
        rcases hx with rfl | rfl | rfl | hx
        · decide
        · decide
        · decide
        · exact (hd x hx).1
    have step2 : pyReplace ("Chr" ++ s) "Chr" "" = s := by
      show String.mk (replaceL ['C', 'h', 'r'] [] ("Chr" ++ s).data) = s
      rw [show ("Chr" ++ s).data = ['C', 'h', 'r'] ++ s.data from by
            rw [String.data_append],
          replaceL_strip_front 'C' ['h', 'r'] s.data (fun x hx => (hd x hx).2.1)]
    have step3 : pyReplace s "CHR" "" = s := by
      show String.mk (replaceL ['C', 'H', 'R'] [] s.data) = s
      rw [replaceL_no_first 'C' ['H', 'R'] s.data (fun x hx => (hd x hx).2.1)]
    unfold normalizeChrom
    dsimp only
    rw [step1, step2, step3, hcolon]
    rfl
  · have step1 : pyReplace ("CHR" ++ s) "chr" "" = "CHR" ++ s := by
      show String.mk (replaceL ['c', 'h', 'r'] [] ("CHR" ++ s).data) = "CHR" ++ s
      rw [show ("CHR" ++ s).data = 'C' :: 'H' :: 'R' :: s.data from by
            rw [String.data_append]; rfl]
      rw [replaceL_no_first 'c' ['h', 'r'] ('C' :: 'H' :: 'R' :: s.data) ?_]
      · rw [show 'C' :: 'H' :: 'R' :: s.data = ("CHR" ++ s).data from by
              rw [String.data_append]; rfl]
      · intro x hx
        simp only [List.mem_cons] at hx
        rcases hx with rfl | rfl | rfl | hx
        · decide
        · decide
        · decide
        · exact (hd x hx).1
    have step2 : pyReplace ("CHR" ++ s) "Chr" "" = "CHR" ++ s := by
      show String.mk (replaceL ['C', 'h', 'r'] [] ("CHR" ++ s).data) = "CHR" ++ s
      rw [show ("CHR" ++ s).data = 'C' :: 'H' :: 'R' :: s.data from by
            rw [String.data_append]; rfl]
      rw [replaceL_stuck_head 'C' ['h', 'r'] 'C' ('H' :: 'R' :: s.data) rfl ?_]
      · rw [show 'C' :: 'H' :: 'R' :: s.data = ("CHR" ++ s).data from by
              rw [String.data_append]; rfl]
      · intro x hx
        simp only [List.mem_cons] at hx
        rcases hx with rfl | rfl | hx
        · decide
        · decide
        · exact (hd x hx).2.1
    have step3 : pyReplace ("CHR" ++ s) "CHR" "" = s := by
      show String.mk (replaceL ['C', 'H', 'R'] [] ("CHR" ++ s).data) = s
      rw [show ("CHR" ++ s).data = ['C', 'H', 'R'] ++ s.data from by
            rw [String.data_append],
          replaceL_strip_front 'C' ['H', 'R'] s.data (fun x hx => (hd x hx).2.1)]
    unfold normalizeChrom
    dsimp only
    rw [step1, step2, step3, hcolon]
    rfl
  · have hrest : ∀ x ∈ 'H' :: 'r' :: s.data, x ≠ 'c' := by
      intro x hx
      simp only [List.mem_cons] at hx
      rcases hx with rfl | rfl | hx
      · decide
      · decide
      · exact (hd x hx).1
    have step1 : pyReplace ("cHr" ++ s) "chr" "" = "cHr" ++ s := by
      show String.mk (replaceL ['c', 'h', 'r'] [] ("cHr" ++ s).data) = "cHr" ++ s
      rw [show ("cHr" ++ s).data = 'c' :: 'H' :: 'r' :: s.data from by
            rw [String.data_append]; rfl]
      rw [replaceL_stuck_head 'c' ['h', 'r'] 'c' ('H' :: 'r' :: s.data) rfl hrest]
      rw [show 'c' :: 'H' :: 'r' :: s.data = ("cHr" ++ s).data from by
            rw [String.data_append]; rfl]
    have hnoC : ∀ x ∈ ("cHr" ++ s).data, x ≠ 'C' := by
      rw [show ("cHr" ++ s).data = 'c' :: 'H' :: 'r' :: s.data from by
            rw [String.data_append]; rfl]
      intro x hx
      simp only [List.mem_cons] at hx
      rcases hx with rfl | rfl | rfl | hx
      · decide
      · decide
      · decide
      · exact (hd x hx).2.1
    have step2 : pyReplace ("cHr" ++ s) "Chr" "" = "cHr" ++ s := by
      show String.mk (replaceL ['C', 'h', 'r'] [] ("cHr" ++ s).data) = "cHr" ++ s
      rw [replaceL_no_first 'C' ['h', 'r'] ("cHr" ++ s).data hnoC]
    have step3 : pyReplace ("cHr" ++ s) "CHR" "" = "cHr" ++ s := by
      show String.mk (replaceL ['C', 'H', 'R'] [] ("cHr" ++ s).data) = "cHr" ++ s
      rw [replaceL_no_first 'C' ['H', 'R'] ("cHr" ++ s).data hnoC]
    have hcolon2 : containsSub ("cHr" ++ s) ":" = false := by
      show containsL [':'] ("cHr" ++ s).data = false
      rw [show ("cHr" ++ s).data = 'c' :: 'H' :: 'r' :: s.data from by
            rw [String.data_append]; rfl]
      refine containsL_no_first ':' [] _ ?_
      intro x hx
      simp only [List.mem_cons] at hx
      rcases hx with rfl | rfl | rfl | hx
      · decide
      · decide
      · decide
      · exact (hd x hx).2.2
    unfold normalizeChrom
    dsimp only
    rw [step1, step2, step3, hcolon2]
    rfl
  · have hdata : (s ++ ":" ++ t).data = s.data ++ ':' :: t.data := by
      rw [String.data_append, String.data_append, List.append_assoc]
      rfl
    have hmem : ∀ x ∈ s.data ++ ':' :: t.data, x ≠ 'c' ∧ x ≠ 'C' := by
      intro x hx
      rcases List.mem_append.mp hx with hx | hx
      · exact ⟨(hd x hx).1, (hd x hx).2.1⟩
      · simp only [List.mem_cons] at hx
        rcases hx with rfl | hx
        · exact ⟨by decide, by decide⟩
        · have hdig := ht x hx
          exact ⟨by rintro rfl; exact absurd hdig (by decide),
            by rintro rfl; exact absurd hdig (by decide)⟩
    have step1 : pyReplace (s ++ ":" ++ t) "chr" "" = s ++ ":" ++ t := by
      show String.mk (replaceL ['c', 'h', 'r'] [] (s ++ ":" ++ t).data) = s ++ ":" ++ t
      rw [hdata, replaceL_no_first 'c' ['h', 'r'] _ (fun x hx => (hmem x hx).1), ← hdata]
    have step2 : pyReplace (s ++ ":" ++ t) "Chr" "" = s ++ ":" ++ t := by
      show String.mk (replaceL ['C', 'h', 'r'] [] (s ++ ":" ++ t).data) = s ++ ":" ++ t
      rw [hdata, replaceL_no_first 'C' ['h', 'r'] _ (fun x hx => (hmem x hx).2), ← hdata]
    have step3 : pyReplace (s ++ ":" ++ t) "CHR" "" = s ++ ":" ++ t := by
      show String.mk (replaceL ['C', 'H', 'R'] [] (s ++ ":" ++ t).data) = s ++ ":" ++ t
      rw [hdata, replaceL_no_first 'C' ['H', 'R'] _ (fun x hx => (hmem x hx).2), ← hdata]
    have hfound : containsSub (s ++ ":" ++ t) ":" = true := by
      show containsL [':'] (s ++ ":" ++ t).data = true
      rw [hdata]
      exact containsL_single_mem ':' s.data t.data
    unfold normalizeChrom
    dsimp only
    rw [step1, step2, step3, hfound]
    show beforeChar ':' (s ++ ":" ++ t) = s
    show String.mk ((s ++ ":" ++ t).data.takeWhile (fun c => c ≠ ':')) = s
    rw [hdata, takeWhile_before_sep ':' s.data t.data (fun x hx => (hd x hx).2.2)]

/-- Witness for C6 (amended) at concrete digit labels. -/
theorem chrom_normalization_amended_witness :
    normalizeChrom ("chr" ++ "17") = "17" ∧
    normalizeChrom ("cHr" ++ "17") = "cHr" ++ "17" :=
  ⟨(chrom_normalization_amended "17" "3" (by decide) (by decide)).1,
    (chrom_normalization_amended "17" "3" (by decide) (by decide)).2.2.2.1⟩

end VcfPipeline
